import Mathlib

/-!
Verification development for the stock readiness scanner
(`stock_readiness_scanner3.py`).  The scoring and signal-decision pipeline is
embedded with exact rationals; a value that the source represents by the float
sentinel `NaN` ("unavailable") is represented by `none : Option ℚ`.  Float
special cases that the source relies on (division of a positive value by zero
giving `inf`, `0/0` giving `NaN`, `NaN` comparisons being false) are made
explicit in the corresponding definitions.
-/

namespace StockScanner

/-- CONFIG constant `EMA_FAST = 20`. -/
def emaFastSpan : ℕ := 20

/-- CONFIG constant `EMA_SLOW = 50`. -/
def emaSlowSpan : ℕ := 50

/-- CONFIG constant `RSI_PERIOD = 14`. -/
def rsiPeriod : ℕ := 14

/-- CONFIG constant `OBV_LOOKBACK = 14`. -/
def obvLookback : ℕ := 14

/-- CONFIG constant `VOLUME_SPIKE_MULT = 1.5`. -/
def volumeSpikeMult : ℚ := 3/2

/-- CONFIG constant `INST_FLOW_WEIGHT = 0.10`. -/
def instFlowWeight : ℚ := 1/10

/-- CONFIG constant `MTF_CONFIRM_THRESHOLD = 2`. -/
def mtfConfirmThreshold : ℕ := 2

/-- CONFIG constant `MTF_POSITIVE_PRICE_SCORE = 60.0`. -/
def mtfPositivePriceScore : ℚ := 60

/-- CONFIG constant `BTD_LOOKBACK_DAYS = 20`. -/
def btdLookbackDays : ℕ := 20

/-- CONFIG constant `BTD_MIN_PULLBACK = 0.02`. -/
def btdMinPullback : ℚ := 2/100

/-- CONFIG constant `BTD_MAX_PULLBACK = 0.08`. -/
def btdMaxPullback : ℚ := 8/100

/-- CONFIG constant `BTD_REQUIRE_DAILY_UPTREND = True`. -/
def btdRequireDailyUptrend : Bool := true

/-- Asset classes returned by `detect_asset_class` (the keys of
`SCORES_CONFIG`). -/
inductive AssetClass where
  | EQUITY | ETF | INDEX | COMMODITY | CRYPTOCURRENCY | CURRENCY | UNKNOWN
deriving DecidableEq, Repr

/-- One row of the static `SCORES_CONFIG` table: per-asset-class
price/flow/fundamentals base weights. -/
structure ScoreCfg where
  price : ℚ
  flow : ℚ
  fund : ℚ
deriving DecidableEq, Repr

/-- The static `SCORES_CONFIG` table of the source. -/
def scoresConfig : AssetClass → ScoreCfg
  | .EQUITY => ⟨40/100, 35/100, 25/100⟩
  | .ETF => ⟨45/100, 45/100, 10/100⟩
  | .INDEX => ⟨70/100, 0, 30/100⟩
  | .COMMODITY => ⟨80/100, 20/100, 0⟩
  | .CRYPTOCURRENCY => ⟨75/100, 25/100, 0⟩
  | .CURRENCY => ⟨80/100, 20/100, 0⟩
  | .UNKNOWN => ⟨40/100, 35/100, 25/100⟩

/-- Sum of the three base weights of an asset class (the source's
`base_total = base_price + base_flow + base_fund`). -/
def baseTotal (ac : AssetClass) : ℚ :=
  (scoresConfig ac).price + (scoresConfig ac).flow + (scoresConfig ac).fund

/-- The repeated `max(0.0, min(1.0, x))` clamp of the source. -/
def clamp01 (x : ℚ) : ℚ := max 0 (min 1 x)

/-- The source stores booleans as `int(...) ∈ {0,1}` and weights them via
`1.0 if b==1 else 0.0`; we map `Bool` to the same 0/1 rational. -/
def b2q (b : Bool) : ℚ := if b then 1 else 0

/-- Python `int()` applied to a numeric value: truncation toward zero. -/
def pyInt (q : ℚ) : ℤ := if 0 ≤ q then ⌊q⌋ else -⌊-q⌋

/-- `xs.iloc[-n:]`: the last `n` elements (whole list if shorter). -/
def lastN (n : ℕ) (xs : List ℚ) : List ℚ := xs.drop (xs.length - n)

/-- `series.max()` over a nonempty series (0 for the empty series, which the
source never reaches because `get_history` raises on empty data). -/
def listMax : List ℚ → ℚ
  | [] => 0
  | x :: xs => xs.foldl max x

/-- `series.iloc[-1]` with a default for the empty series (unreachable in the
source, where `get_history` raises on empty data). -/
def getLastD (xs : List ℚ) (d : ℚ) : ℚ := xs.getLastD d

/-- Arithmetic mean of a list (`series.mean()`). -/
def listMean (xs : List ℚ) : ℚ := xs.sum / (xs.length : ℚ)

/-- `series.diff()` without its leading `NaN`: pairwise deltas
`x_i - x_{i-1}`. -/
def seriesDiff (xs : List ℚ) : List ℚ :=
  List.zipWith (fun prev next => next - prev) xs xs.tail

/-- `series.ewm(span=span, adjust=False).mean().iloc[-1]`: recursive EMA
seeded by the first value, `e_t = e_{t-1} + α (x_t - e_{t-1})` with
`α = 2/(span+1)`. -/
def emaLast (xs : List ℚ) (span : ℕ) : ℚ :=
  match xs with
  | [] => 0
  | x :: rest => rest.foldl (fun e c => e + 2 / ((span : ℚ) + 1) * (c - e)) x

/-- The last window of `RSI_PERIOD` deltas together with its Wilder-style
simple averages of up-moves and down-moves, as produced at the last index by
`up.rolling(period, min_periods=period).mean()` and likewise for `down`.
The rolling value at the last index is non-`NaN` iff the series has at least
`period + 1` closes (the first delta is `NaN`). -/
def rsiAvgs (closes : List ℚ) : Option (ℚ × ℚ) :=
  if rsiPeriod + 1 ≤ closes.length then
    let ds := lastN rsiPeriod (seriesDiff closes)
    some ((ds.map (fun d => max d 0)).sum / (rsiPeriod : ℚ),
          (ds.map (fun d => max (-d) 0)).sum / (rsiPeriod : ℚ))
  else none

/-- `ma_up` at the last index of the `rsi` helper (`none` = `NaN`). -/
def avgUpLast (closes : List ℚ) : Option ℚ := (rsiAvgs closes).map Prod.fst

/-- `ma_down` at the last index of the `rsi` helper (`none` = `NaN`). -/
def avgDownLast (closes : List ℚ) : Option ℚ := (rsiAvgs closes).map Prod.snd

/-- The last value of `rsi(series, period) = 100 - 100/(1 + ma_up/ma_down)`
under float semantics: when `ma_down = 0` and `ma_up > 0`, `rs = inf` and the
result is exactly `100`; when both averages are `0`, `rs = 0/0 = NaN` and the
result is `NaN` (`none`); too-short series likewise give `NaN`. -/
def rsiLast (closes : List ℚ) : Option ℚ :=
  match rsiAvgs closes with
  | none => none
  | some (au, ad) =>
    if ad = 0 then (if au = 0 then none else some 100)
    else some (100 - 100 / (1 + au / ad))

/-- Float comparison `a > b` where either side may be `NaN`: any comparison
with `NaN` is false. -/
def optGtB (a b : Option ℚ) : Bool :=
  match a, b with
  | some x, some y => decide (y < x)
  | _, _ => false

/-- `int(r.iloc[-1] > r.iloc[-3]) if len(r) >= 3 else 0` for the RSI series:
the rolling RSI value at index `n-3` equals the last RSI of the prefix of
length `n-2`. -/
def rsiRising (closes : List ℚ) : Bool :=
  if 3 ≤ closes.length then
    optGtB (rsiLast closes) (rsiLast (closes.take (closes.length - 2)))
  else false

/-- The cumulative OBV series of `compute_obv`: starts at 0; adds
`int(volume)` when the close rose, subtracts it when the close fell. -/
def obvSeries (closes vols : List ℚ) : List ℚ :=
  (List.foldl
    (fun acc t =>
      let o := acc.headD 0
      let c := t.1.1
      let cp := t.1.2
      let v := t.2
      (if cp < c then o + (pyInt v : ℚ)
       else if c < cp then o - (pyInt v : ℚ)
       else o) :: acc)
    [0] (List.zip (List.zip closes.tail closes) vols.tail)).reverse

/-- Slope of the degree-1 least-squares fit used via `np.polyfit(x, y, 1)[0]`
with `x = 0..n-1`.  For the 14-point windows the source feeds in, the
denominator is nonzero; the 0 fallback is unreachable there. -/
def lsSlope (ys : List ℚ) : ℚ :=
  let n : ℚ := (ys.length : ℚ)
  let xs := (List.range ys.length).map (fun i => (i : ℚ))
  let sx := xs.sum
  let sy := ys.sum
  let sxy := (List.zipWith (fun a b => a * b) xs ys).sum
  let sxx := (xs.map (fun x => x * x)).sum
  if n * sxx - sx * sx = 0 then 0 else (n * sxy - sx * sy) / (n * sxx - sx * sx)

/-- One timeframe of OHLCV data as consumed by
`compute_technical_metrics_from_hist`: `get_history` has already dropped rows
with missing closes and raised on empty data.  When the provider omits the
`Low` column the source falls back to the closes, and when it omits `Volume`
it uses zeros; callers of this embedding pass those fallbacks explicitly. -/
structure HistData where
  closes : List ℚ
  lows : List ℚ
  vols : List ℚ
deriving DecidableEq, Repr

/-- The Technical Metrics Bundle produced by
`compute_technical_metrics_from_hist`. -/
structure Tech where
  last_close : ℚ
  ema_fast : ℚ
  ema_slow : ℚ
  ema_cross : Bool
  price_above_ema_slow : Bool
  rsi : Option ℚ
  rsi_rising : Bool
  higher_lows_3 : Bool
  obv_latest : ℚ
  obv_slope : ℚ
  obv_slope_pos : Bool
  avg_vol_30 : ℚ
  today_vol : ℚ
  vol_spike_up : Bool
deriving DecidableEq, Repr

/-- `higher_lows_3`: the last 3 of the last 5 lows strictly increase. -/
def higherLows3 (lows : List ℚ) : Bool :=
  match lastN 3 (lastN 5 lows) with
  | [a, b, c] => decide (b < c) && decide (a < b)
  | _ => false

/-- `avg_vol_30`: last value of `vol.rolling(30, min_periods=5).mean()` when
at least 5 volumes exist (the last window is the last `min(30, n)` values),
else the full-series mean when nonempty, else 0. -/
def avgVol30 (vols : List ℚ) : ℚ :=
  if 5 ≤ vols.length then listMean (lastN 30 vols)
  else if 0 < vols.length then listMean vols
  else 0

/-- `compute_technical_metrics_from_hist`. -/
def computeTech (h : HistData) : Tech :=
  let close := h.closes
  let emaF := emaLast close emaFastSpan
  let emaS := emaLast close emaSlowSpan
  let obv := obvSeries close h.vols
  let slope := if obvLookback ≤ obv.length then lsSlope (lastN obvLookback obv) else 0
  let avg30 := avgVol30 h.vols
  let todayVol := getLastD h.vols 0
  let todayUp : Bool :=
    decide (2 ≤ close.length) && decide (getLastD close.dropLast 0 < getLastD close 0)
  { last_close := getLastD close 0
    ema_fast := emaF
    ema_slow := emaS
    ema_cross := decide (emaS < emaF)
    price_above_ema_slow := decide (emaS < getLastD close 0)
    rsi := rsiLast close
    rsi_rising := rsiRising close
    higher_lows_3 := higherLows3 h.lows
    obv_latest := getLastD obv 0
    obv_slope := slope
    obv_slope_pos := decide (0 < slope)
    avg_vol_30 := avg30
    today_vol := todayVol
    vol_spike_up := decide (volumeSpikeMult * avg30 < todayVol) && todayUp }

/-- The option-chain rows (`volume`, `openInterest`) for the nearest expiry,
as delivered by the option-chain provider; rows whose values were `NaN` have
been dropped (`dropna`). -/
structure ChainData where
  expiry : String
  calls : List (ℚ × ℚ)
  puts : List (ℚ × ℚ)
deriving DecidableEq, Repr

/-- The Option Flow Metrics record of `compute_options_metrics` (`none` for
the `NaN`/`None` sentinels). -/
structure OptMetrics where
  optNearestExpiry : Option String
  callVolSum : Option ℤ
  putVolSum : Option ℤ
  callOiSum : Option ℤ
  putOiSum : Option ℤ
  callPutVolRat : Option ℚ
  callPutOiRat : Option ℚ
deriving DecidableEq, Repr

/-- `safe_div(a, b)`: `a/b` when `b` is truthy (nonzero), else the `NaN`
default. -/
def safe_div (a b : ℚ) : Option ℚ := if b = 0 then none else some (a / b)

/-- `compute_options_metrics`: `none` input models "no expiries" or any
exception from the chain fetch, both of which leave every field at its `NaN`
default. -/
def compute_options_metrics (chain : Option ChainData) : OptMetrics :=
  match chain with
  | none => ⟨none, none, none, none, none, none, none⟩
  | some ch =>
    let cv : ℤ := if ch.calls = [] then 0 else pyInt (ch.calls.map Prod.fst).sum
    let pv : ℤ := if ch.puts = [] then 0 else pyInt (ch.puts.map Prod.fst).sum
    let coi : ℤ := if ch.calls = [] then 0 else pyInt (ch.calls.map Prod.snd).sum
    let poi : ℤ := if ch.puts = [] then 0 else pyInt (ch.puts.map Prod.snd).sum
    ⟨some ch.expiry, some cv, some pv, some coi, some poi,
      safe_div (cv : ℚ) (pv : ℚ), safe_div (coi : ℚ) (poi : ℚ)⟩

/-- The mapping of a finite RSI value in `score_price_momentum_from_tech`:
`<30 → 0`, `>80 → 0.2`, else `max(0, 1 - |r-60|/30)`. -/
def rsiBase (rv : ℚ) : ℚ :=
  if rv < 30 then 0 else if 80 < rv then 1/5 else max 0 (1 - |rv - 60| / 30)

/-- The RSI sub-score block of `score_price_momentum_from_tech`: a finite RSI
is mapped by `rsiBase` and then multiplied by 1.2 (capped at 1) when
`rsi_rising`; a `NaN` RSI takes the fixed neutral 0.5 (the rising multiplier
is applied only on the finite branch). -/
def rsiSubScore (r : Option ℚ) (rising : Bool) : ℚ :=
  match r with
  | none => 1/2
  | some rv => if rising then min 1 (rsiBase rv * (6/5)) else rsiBase rv

/-- `score_price_momentum_from_tech`: weighted sum (weights 0.35, 0.25, 0.20,
0.20) times 100. -/
def score_price_momentum_from_tech (t : Tech) : ℚ :=
  (35/100 * b2q t.ema_cross + 25/100 * b2q t.price_above_ema_slow
    + 20/100 * rsiSubScore t.rsi t.rsi_rising + 20/100 * b2q t.higher_lows_3) * 100

/-- Mapping of an available call/put ratio in `score_volume_flow_from_tech_opt`
(`clamp(ratio/2, 0, 1)`); an unavailable ratio contributes the neutral 0.5. -/
def cpMapped (x : Option ℚ) : ℚ :=
  match x with
  | some v => clamp01 (v / 2)
  | none => 1/2

/-- `score_volume_flow_from_tech_opt`: weighted sum (0.30, 0.30, 0.20, 0.20)
normalized by the literal weight total and scaled to 0..100; the option-ratio
terms are fixed at 0.5 for INDEX/CURRENCY/COMMODITY/CRYPTOCURRENCY. -/
def score_volume_flow_from_tech_opt (t : Tech) (o : OptMetrics) (ac : AssetClass) : ℚ :=
  (30/100 * b2q t.vol_spike_up + 30/100 * b2q t.obv_slope_pos +
    (if ac = AssetClass.INDEX ∨ ac = AssetClass.CURRENCY ∨ ac = AssetClass.COMMODITY
        ∨ ac = AssetClass.CRYPTOCURRENCY
     then 20/100 * (1/2) + 20/100 * (1/2)
     else 20/100 * cpMapped o.callPutVolRat + 20/100 * cpMapped o.callPutOiRat))
    / (30/100 + 30/100 + 20/100 + 20/100) * 100

/-- The fundamentals data delivered by the provider for `score_fundamentals`:
the `Earnings` column (already `dropna`'d; empty when the fetch failed or the
column is missing), `shortRatio`, and `recommendationMean` (`none` = absent or
`NaN`). -/
structure FundData where
  quarterlyEarnings : List ℚ
  shortRat : Option ℚ
  recMean : Option ℚ
deriving DecidableEq, Repr

/-- `(vals.iloc[-2], vals.iloc[-1])` when at least two values exist. -/
def lastTwo (xs : List ℚ) : Option (ℚ × ℚ) :=
  match lastN 2 xs with
  | [a, b] => some (a, b)
  | _ => none

/-- `earnings_score` in `score_fundamentals`: quarter-over-quarter earnings
growth `g = (last - prev)/abs(prev)` mapped via `clamp((g+1)/2, 0, 1)`,
neutral 0.5 when fewer than two quarters or the previous quarter is 0. -/
def earningsScoreOf (fd : FundData) : ℚ :=
  match lastTwo fd.quarterlyEarnings with
  | some (prev, last) =>
    if prev = 0 then 1/2 else clamp01 (((last - prev) / |prev| + 1) / 2)
  | none => 1/2

/-- `short_score` in `score_fundamentals`. -/
def shortScoreOf (fd : FundData) : ℚ :=
  match fd.shortRat with
  | some sr => clamp01 (1 - (sr - 5/100) / (25/100))
  | none => 1/2

/-- `rec_score` in `score_fundamentals`. -/
def recScoreOf (fd : FundData) : ℚ :=
  match fd.recMean with
  | some rec => clamp01 ((5 - rec) / 4)
  | none => 1/2

/-- `score_fundamentals`: the 0.5/0.3/0.2 blend of the three component
scores, clamped and scaled to 0..100. -/
def score_fundamentals (fd : FundData) : ℚ :=
  clamp01 (5/10 * earningsScoreOf fd + 3/10 * recScoreOf fd + 2/10 * shortScoreOf fd) * 100

/-- `cpv_score` in `institutional_flow_proxy`. -/
def cpvScoreOf (o : OptMetrics) : ℚ :=
  match o.callPutVolRat with
  | some v => clamp01 (v / 2)
  | none => 1/2

/-- `vol_score` in `institutional_flow_proxy`: volume multiple mapped via
`clamp((mult-1)/2 + 0.5, 0, 1)` when the average volume is positive, else
neutral 0.5. -/
def volScoreOf (t : Tech) : ℚ :=
  if 0 < t.avg_vol_30 then clamp01 ((t.today_vol / t.avg_vol_30 - 1) / 2 + 1/2)
  else 1/2

/-- `institutional_flow_proxy`: 0.4 × call/put-volume score + 0.4 × volume
multiple score + 0.2 × OBV-slope-positive, scaled to 0..100. -/
def institutional_flow_proxy (t : Tech) (o : OptMetrics) : ℚ :=
  (4/10 * cpvScoreOf o + 4/10 * volScoreOf t + 2/10 * b2q t.obv_slope_pos) * 100

/-- `get_buy_signal_from_score`. -/
def get_buy_signal_from_score (s : ℚ) : String :=
  if 80 ≤ s then "STRONG BUY"
  else if 75 ≤ s then "BUY"
  else if 65 ≤ s then "WATCHLIST"
  else "NO TRADE"

/-- The `signal_strength` ternary chain of `analyze_ticker`. -/
def signalStrength (s : ℚ) : String :=
  if 80 ≤ s then "High"
  else if 75 ≤ s then "Medium"
  else if 65 ≤ s then "Low"
  else "None"

/-- The MTF/BTD refinement chain of `analyze_ticker`, applied to the base
label from `get_buy_signal_from_score` (including the redundant re-check of
`not mtf_confirm` inside the STRONG BUY branch). -/
def refineSignal (base : String) (mtfConfirm btdFlag : Bool) (finalScore : ℚ) : String :=
  if base = "STRONG BUY" ∨ base = "BUY" then
    if mtfConfirm = false then
      if base = "STRONG BUY" then
        if mtfConfirm = false then
          if btdFlag = true ∧ 70 ≤ finalScore then "BUY (BTD)" else "WATCHLIST"
        else base
      else
        if btdFlag = true ∧ 70 ≤ finalScore then "BUY (BTD)" else "WATCHLIST"
    else base
  else
    if btdFlag = true ∧ 70 ≤ finalScore then "BUY (BTD)"
    else if btdFlag = true ∧ 65 ≤ finalScore then "WATCHLIST (BTD)"
    else base

/-- Python `round(q, 2)` (ties are astronomically rare on the float values the
source rounds; we use the standard rounding of `Mathlib`). -/
def round2 (q : ℚ) : ℚ := ((round (q * 100) : ℤ) : ℚ) / 100

/-- Python `round(q, 4)`. -/
def round4 (q : ℚ) : ℚ := ((round (q * 10000) : ℤ) : ℚ) / 10000

/-- The closing-price window of the last `BTD_LOOKBACK_DAYS` bars (whole
series if shorter) used by `detect_buy_the_dip`. -/
def btdLook (closes : List ℚ) : List ℚ :=
  if btdLookbackDays ≤ closes.length then lastN btdLookbackDays closes else closes

/-- `recent_high = float(look.max())`. -/
def btdRecentHigh (closes : List ℚ) : ℚ := listMax (btdLook closes)

/-- `pullback = (recent_high - last_close)/recent_high if recent_high>0 else
0.0` where `last_close` is the bundle's last close. -/
def btdPullback (closes : List ℚ) : ℚ :=
  let rh := btdRecentHigh closes
  if 0 < rh then (rh - getLastD closes 0) / rh else 0

/-- `detect_buy_the_dip`: `none` input models the history fetch raising (the
source returns `(False, nan, nan)`); the failed-uptrend branch returns
`(False, None, None)`; both `NaN` and `None` sentinels are `none` here.
Otherwise the flag is the bounded-pullback test and the pullback is reported
rounded to 4 decimals. -/
def detect_buy_the_dip (fetch : Option HistData) : Bool × Option ℚ × Option ℚ :=
  match fetch with
  | none => (false, none, none)
  | some hist =>
    let tech := computeTech hist
    if btdRequireDailyUptrend = true
        ∧ ¬(tech.ema_cross = true ∧ tech.price_above_ema_slow = true) then
      (false, none, none)
    else
      let rh := btdRecentHigh hist.closes
      let pb := btdPullback hist.closes
      let isBtd := decide (btdMinPullback ≤ pb) && decide (pb ≤ btdMaxPullback)
      (isBtd, some (round4 pb), some rh)

/-- Per-timeframe price-momentum score of `compute_mtf_confirmation`: a failed
fetch for a timeframe is swallowed and recorded as `NaN` (`none`). -/
def mtfScoreOf (oh : Option HistData) : Option ℚ :=
  oh.map (fun h => score_price_momentum_from_tech (computeTech h))

/-- Whether a per-timeframe entry counts as positive (`score >= 60`; a `NaN`
entry never counts). -/
def isPositiveTf (d : Option ℚ) : Bool :=
  match d with
  | some s => decide (mtfPositivePriceScore ≤ s)
  | none => false

/-- `compute_mtf_confirmation` over the per-timeframe fetch results (aligned
with `MTF_TIMEFRAMES`): positive count, confirmation flag, details map. -/
def compute_mtf_confirmation (hs : List (Option HistData)) : ℕ × Bool × List (Option ℚ) :=
  let details := hs.map mtfScoreOf
  let positives := (details.filter isPositiveTf).length
  (positives, decide (mtfConfirmThreshold ≤ positives), details)

/-- `get_score_trend` over the ticker's recorded scores (chronological); a
missing history file or a read error is the `none` case. -/
def get_score_trend (store : Option (List ℚ)) : String :=
  match store with
  | none => "N/A"
  | some scores =>
    let t := lastN 3 scores
    if t.length < 2 then "N/A"
    else
      let last := getLastD t 0
      let prevMean := if 1 < t.length then listMean t.dropLast else t.headD 0
      if prevMean < last then "RISING"
      else if last < prevMean then "FALLING"
      else "FLAT"

/-- The blended weights `(p_w, f_w, fund_w)` computed in `analyze_ticker`:
the base weights rescaled to sum to `remaining = max(0, 1 - INST_FLOW_WEIGHT)`
when their total is positive, else the fixed 0.6/0.4/0 fallback. -/
def blendWeights (ac : AssetClass) : ℚ × ℚ × ℚ :=
  let c := scoresConfig ac
  let remaining := max 0 (1 - instFlowWeight)
  if 0 < baseTotal ac then
    (c.price / baseTotal ac * remaining,
     c.flow / baseTotal ac * remaining,
     c.fund / baseTotal ac * remaining)
  else (remaining * (6/10), remaining * (4/10), 0)

/-- The final weighted blend
`p_w*price_sub + f_w*flow_sub + fund_w*fund_val + inst_w*inst_val` of
`analyze_ticker`. -/
def finalScoreBlend (ac : AssetClass) (p f fu i : ℚ) : ℚ :=
  (blendWeights ac).1 * p + (blendWeights ac).2.1 * f
    + (blendWeights ac).2.2 * fu + instFlowWeight * i

/-- The per-ticker collaborator results consumed by one `analyze_ticker` run.
`daily = none` models the primary daily `get_history` call raising; the other
fetches never raise past their own boundary (their failures appear as `none`
or empty data here). -/
structure Env where
  assetClass : AssetClass
  sector : String
  daily : Option HistData
  chain : Option ChainData
  fund : FundData
  mtfHists : List (Option HistData)
  btdHist : Option HistData
  historyScores : Option (List ℚ)
deriving DecidableEq, Repr

/-- `fund_sub` in `analyze_ticker`: computed only when the class's
fundamentals weight is positive, else left at its `NaN` initial value. -/
def fundSubOf (env : Env) : Option ℚ :=
  if 0 < (scoresConfig env.assetClass).fund then some (score_fundamentals env.fund)
  else none

/-- `inst_proxy` in `analyze_ticker`: computed only when `INST_FLOW_WEIGHT`
is positive. -/
def instProxyOf (tech : Tech) (opt : OptMetrics) : Option ℚ :=
  if 0 < instFlowWeight then some (institutional_flow_proxy tech opt) else none

/-- The unrounded `final_score` computed by `analyze_ticker` from a
successfully fetched daily history (unavailable fundamentals/institutional
values are substituted with the neutral 50 before blending). -/
def unroundedFinalScore (env : Env) (hist : HistData) : ℚ :=
  let tech := computeTech hist
  let opt := compute_options_metrics env.chain
  finalScoreBlend env.assetClass
    (score_price_momentum_from_tech tech)
    (score_volume_flow_from_tech_opt tech opt env.assetClass)
    ((fundSubOf env).getD 50)
    ((instProxyOf tech opt).getD 50)

/-- The scored fields written into the output record by `analyze_ticker` on
success (sub-scores and the final score rounded to 2 decimals). -/
structure ScoredFields where
  priceSubscore : ℚ
  flowSubscore : ℚ
  fundSubscore : ℚ
  instFlowProxy : ℚ
  finalReadinessScore : ℚ
  buySignal : String
  signalStrengthLabel : String
  scoreTrend : String
  mtfPositiveCount : ℕ
  mtfConfirm : Bool
  mtfDetails : List (Option ℚ)
  buyTheDip : Bool
  btdPullbackPct : Option ℚ
  btdRecentHighVal : Option ℚ
  lastClose : ℚ
  avgVol30Val : ℚ
  optNearestExpiry : Option String
  callPutVolRat : Option ℚ
deriving DecidableEq, Repr

/-- The per-ticker output record: either the error record (ticker, asset
class and sector were set before the failure; an `error` field and no score
fields) or the fully scored record. -/
inductive AnalysisRec where
  | err (assetClass : AssetClass) (sector : String) (msg : String)
  | ok (assetClass : AssetClass) (sector : String) (fields : ScoredFields)
deriving DecidableEq, Repr

/-- Whether a record is a fully scored record. -/
def isScored : AnalysisRec → Bool
  | .err _ _ _ => false
  | .ok _ _ _ => true

/-- `final_readiness_score` of a record (`none` on an error record). -/
def recFinalScore : AnalysisRec → Option ℚ
  | .err _ _ _ => none
  | .ok _ _ f => some f.finalReadinessScore

/-- `buy_signal` of a record (`none` on an error record). -/
def recBuySignal : AnalysisRec → Option String
  | .err _ _ _ => none
  | .ok _ _ f => some f.buySignal

/-- `signal_strength` of a record (`none` on an error record). -/
def recStrength : AnalysisRec → Option String
  | .err _ _ _ => none
  | .ok _ _ f => some f.signalStrengthLabel

/-- `analyze_ticker`: the top-level per-ticker entry point.  The whole scored
body runs inside `try`; the only statement in it that raises is the primary
daily `get_history` call (every other collaborator failure is caught at a
narrower boundary), so `daily = none` produces the error record and any
successful daily fetch produces the fully scored record. -/
def analyze_ticker (env : Env) : AnalysisRec :=
  match env.daily with
  | none => .err env.assetClass env.sector "history fetch failed"
  | some hist =>
    let tech := computeTech hist
    let opt := compute_options_metrics env.chain
    let priceSub := score_price_momentum_from_tech tech
    let flowSub := score_volume_flow_from_tech_opt tech opt env.assetClass
    let fundVal := (fundSubOf env).getD 50
    let instVal := (instProxyOf tech opt).getD 50
    let final := unroundedFinalScore env hist
    let mtf := compute_mtf_confirmation env.mtfHists
    let btd := detect_buy_the_dip env.btdHist
    let sig := refineSignal (get_buy_signal_from_score final) mtf.2.1 btd.1 final
    .ok env.assetClass env.sector
      { priceSubscore := round2 priceSub
        flowSubscore := round2 flowSub
        fundSubscore := round2 fundVal
        instFlowProxy := round2 instVal
        finalReadinessScore := round2 final
        buySignal := sig
        signalStrengthLabel := signalStrength final
        scoreTrend := get_score_trend env.historyScores
        mtfPositiveCount := mtf.1
        mtfConfirm := mtf.2.1
        mtfDetails := mtf.2.2
        buyTheDip := btd.1
        btdPullbackPct := btd.2.1
        btdRecentHighVal := btd.2.2
        lastClose := tech.last_close
        avgVol30Val := tech.avg_vol_30
        optNearestExpiry := opt.optNearestExpiry
        callPutVolRat := opt.callPutVolRat }

/-! ### Helper lemmas about the threshold chains -/

lemma sgn_strong_iff (s : ℚ) : get_buy_signal_from_score s = "STRONG BUY" ↔ 80 ≤ s := by
  unfold get_buy_signal_from_score
  split_ifs with h1 h2 h3
  · exact iff_of_true rfl h1
  · exact iff_of_false (by decide) h1
  · exact iff_of_false (by decide) h1
  · exact iff_of_false (by decide) h1

lemma sgn_buy_iff (s : ℚ) : get_buy_signal_from_score s = "BUY" ↔ 75 ≤ s ∧ s < 80 := by
  unfold get_buy_signal_from_score
  split_ifs with h1 h2 h3
  · exact iff_of_false (by decide) (fun h => absurd h1 (not_le.mpr h.2))
  · exact iff_of_true rfl ⟨h2, not_le.mp h1⟩
  · exact iff_of_false (by decide) (fun h => h2 h.1)
  · exact iff_of_false (by decide) (fun h => h2 h.1)

lemma sgn_watch_iff (s : ℚ) : get_buy_signal_from_score s = "WATCHLIST" ↔ 65 ≤ s ∧ s < 75 := by
  unfold get_buy_signal_from_score
  split_ifs with h1 h2 h3
  · exact iff_of_false (by decide) (fun h => absurd h1 (not_le.mpr (lt_of_lt_of_le h.2 (by norm_num))))
  · exact iff_of_false (by decide) (fun h => absurd h2 (not_le.mpr h.2))
  · exact iff_of_true rfl ⟨h3, not_le.mp h2⟩
  · exact iff_of_false (by decide) (fun h => h3 h.1)

lemma sgn_notrade_iff (s : ℚ) : get_buy_signal_from_score s = "NO TRADE" ↔ s < 65 := by
  unfold get_buy_signal_from_score
  split_ifs with h1 h2 h3
  · exact iff_of_false (by decide) (fun h => absurd h1 (not_le.mpr (lt_of_lt_of_le h (by norm_num))))
  · exact iff_of_false (by decide) (fun h => absurd h2 (not_le.mpr (lt_of_lt_of_le h (by norm_num))))
  · exact iff_of_false (by decide) (fun h => absurd h3 (not_le.mpr h))
  · exact iff_of_true rfl (not_le.mp h3)

lemma str_high_iff (s : ℚ) : signalStrength s = "High" ↔ 80 ≤ s := by
  unfold signalStrength
  split_ifs with h1 h2 h3
  · exact iff_of_true rfl h1
  · exact iff_of_false (by decide) h1
  · exact iff_of_false (by decide) h1
  · exact iff_of_false (by decide) h1

lemma str_medium_iff (s : ℚ) : signalStrength s = "Medium" ↔ 75 ≤ s ∧ s < 80 := by
  unfold signalStrength
  split_ifs with h1 h2 h3
  · exact iff_of_false (by decide) (fun h => absurd h1 (not_le.mpr h.2))
  · exact iff_of_true rfl ⟨h2, not_le.mp h1⟩
  · exact iff_of_false (by decide) (fun h => h2 h.1)
  · exact iff_of_false (by decide) (fun h => h2 h.1)

lemma str_low_iff (s : ℚ) : signalStrength s = "Low" ↔ 65 ≤ s ∧ s < 75 := by
  unfold signalStrength
  split_ifs with h1 h2 h3
  · exact iff_of_false (by decide) (fun h => absurd h1 (not_le.mpr (lt_of_lt_of_le h.2 (by norm_num))))
  · exact iff_of_false (by decide) (fun h => absurd h2 (not_le.mpr h.2))
  · exact iff_of_true rfl ⟨h3, not_le.mp h2⟩
  · exact iff_of_false (by decide) (fun h => h3 h.1)

lemma str_none_iff (s : ℚ) : signalStrength s = "None" ↔ s < 65 := by
  unfold signalStrength
  split_ifs with h1 h2 h3
  · exact iff_of_false (by decide) (fun h => absurd h1 (not_le.mpr (lt_of_lt_of_le h (by norm_num))))
  · exact iff_of_false (by decide) (fun h => absurd h2 (not_le.mpr (lt_of_lt_of_le h (by norm_num))))
  · exact iff_of_false (by decide) (fun h => absurd h3 (not_le.mpr h))
  · exact iff_of_true rfl (not_le.mp h3)

/-! ### Claim theorems -/

/-- Claim C6: the base label and the signal strength are exact threshold bands
of the unrounded final score: STRONG BUY/High iff `score ≥ 80`, BUY/Medium iff
`75 ≤ score < 80`, WATCHLIST/Low iff `65 ≤ score < 75`, NO TRADE/None
otherwise; in particular exactly 80.0 gives STRONG BUY/High, 79.999 gives
BUY/Medium, 75.0 gives BUY, and 64.999 gives NO TRADE/None. -/
theorem c6_theorem (s : ℚ) :
    (get_buy_signal_from_score s = "STRONG BUY" ↔ 80 ≤ s)
  ∧ (get_buy_signal_from_score s = "BUY" ↔ 75 ≤ s ∧ s < 80)
  ∧ (get_buy_signal_from_score s = "WATCHLIST" ↔ 65 ≤ s ∧ s < 75)
  ∧ (get_buy_signal_from_score s = "NO TRADE" ↔ s < 65)
  ∧ (signalStrength s = "High" ↔ 80 ≤ s)
  ∧ (signalStrength s = "Medium" ↔ 75 ≤ s ∧ s < 80)
  ∧ (signalStrength s = "Low" ↔ 65 ≤ s ∧ s < 75)
  ∧ (signalStrength s = "None" ↔ s < 65)
  ∧ get_buy_signal_from_score 80 = "STRONG BUY" ∧ signalStrength 80 = "High"
  ∧ get_buy_signal_from_score (79999/1000) = "BUY"
  ∧ signalStrength (79999/1000) = "Medium"
  ∧ get_buy_signal_from_score 75 = "BUY"
  ∧ get_buy_signal_from_score (64999/1000) = "NO TRADE"
  ∧ signalStrength (64999/1000) = "None" :=
  ⟨sgn_strong_iff s, sgn_buy_iff s, sgn_watch_iff s, sgn_notrade_iff s,
   str_high_iff s, str_medium_iff s, str_low_iff s, str_none_iff s,
   by norm_num [get_buy_signal_from_score], by norm_num [signalStrength],
   by norm_num [get_buy_signal_from_score], by norm_num [signalStrength],
   by norm_num [get_buy_signal_from_score], by norm_num [get_buy_signal_from_score],
   by norm_num [signalStrength]⟩

/-- Claim C1 counterexample: at `final_score = 70` the base label is
WATCHLIST, yet with `buy_the_dip = true` the Signal Decision Engine relabels
it "BUY (BTD)" (for either value of `mtf_confirm`), so the WATCHLIST base
label does not pass through unchanged for all values of the BTD flag. -/
theorem c1_counterexample :
    get_buy_signal_from_score 70 = "WATCHLIST"
  ∧ refineSignal (get_buy_signal_from_score 70) false true 70 = "BUY (BTD)"
  ∧ refineSignal (get_buy_signal_from_score 70) true true 70 = "BUY (BTD)"
  ∧ ("BUY (BTD)" : String) ≠ "WATCHLIST" := by decide

/-- Claim C1 (amended): a WATCHLIST base label is left unchanged (for every
value of `mtf_confirm`) only when `buy_the_dip` is false; when `buy_the_dip`
is true, the final else-branch of the decision chain relabels it "BUY (BTD)"
if `final_score ≥ 70` and "WATCHLIST (BTD)" otherwise (a WATCHLIST base
implies `final_score ≥ 65`). -/
theorem c1_theorem (s : ℚ) (mtf btd : Bool)
    (hbase : get_buy_signal_from_score s = "WATCHLIST") :
    refineSignal (get_buy_signal_from_score s) mtf btd s =
      if btd = true ∧ 70 ≤ s then "BUY (BTD)"
      else if btd = true then "WATCHLIST (BTD)"
      else "WATCHLIST" := by
  obtain ⟨h65, h75⟩ := (sgn_watch_iff s).mp hbase
  rw [hbase]
  unfold refineSignal
  rw [if_neg (by decide)]
  split_ifs <;> first | rfl | tauto

/-- Claim C1 witness: the amended statement evaluated at `final_score = 72`
with `buy_the_dip = false`. -/
theorem c1_witness :
    refineSignal (get_buy_signal_from_score 72) true false 72 = "WATCHLIST" := by
  have h := c1_theorem 72 true false (by decide)
  rw [h]; decide

/-- Claim C7: for a STRONG BUY or BUY base label, an unconfirmed MTF turns the
label into "BUY (BTD)" when the dip flag is set and `final_score ≥ 70` and
into "WATCHLIST" otherwise, while a confirmed MTF passes the base label
through unchanged. -/
theorem c7_theorem (s : ℚ) (mtf btd : Bool)
    (hbase : get_buy_signal_from_score s = "STRONG BUY"
      ∨ get_buy_signal_from_score s = "BUY") :
    (mtf = false → refineSignal (get_buy_signal_from_score s) mtf btd s =
      if btd = true ∧ 70 ≤ s then "BUY (BTD)" else "WATCHLIST")
  ∧ (mtf = true → refineSignal (get_buy_signal_from_score s) mtf btd s =
      get_buy_signal_from_score s) := by
  rcases hbase with h | h <;> rw [h] <;> constructor
  · rintro rfl
    unfold refineSignal
    rw [if_pos (Or.inl rfl), if_pos rfl, if_pos rfl, if_pos rfl]
  · rintro rfl
    unfold refineSignal
    rw [if_pos (Or.inl rfl), if_neg (by decide)]
  · rintro rfl
    unfold refineSignal
    rw [if_pos (Or.inr rfl), if_pos rfl, if_neg (by decide)]
  · rintro rfl
    unfold refineSignal
    rw [if_pos (Or.inr rfl), if_neg (by decide)]

/-- Claim C7 witness: base label BUY (score 77), `mtf_confirm = false`,
`buy_the_dip = true` gives "BUY (BTD)"; with `mtf_confirm = true` the BUY
label passes through. -/
theorem c7_witness :
    refineSignal (get_buy_signal_from_score 77) false true 77 = "BUY (BTD)"
  ∧ refineSignal (get_buy_signal_from_score 77) true true 77 = "BUY" := by
  constructor
  · have h := (c7_theorem 77 false true (Or.inr (by decide))).1 rfl
    rw [h]; decide
  · have h := (c7_theorem 77 true true (Or.inr (by decide))).2 rfl
    rw [h]; decide

/-- Claim C5: for every asset class in the static table the three base
weights have positive sum, the rescaled price/flow/fund weights sum to
exactly `1 - INST_FLOW_WEIGHT`, the institutional weight is exactly
`INST_FLOW_WEIGHT = 0.10`, and the blend uses exactly that weight on the
institutional input. -/
theorem c5_theorem (ac : AssetClass) :
    0 < baseTotal ac
  ∧ (blendWeights ac).1 + (blendWeights ac).2.1 + (blendWeights ac).2.2
      = 1 - instFlowWeight
  ∧ instFlowWeight = 1/10
  ∧ ∀ p f fu i : ℚ, finalScoreBlend ac p f fu i =
      (blendWeights ac).1 * p + (blendWeights ac).2.1 * f
        + (blendWeights ac).2.2 * fu + 1/10 * i := by
  cases ac <;>
    exact ⟨by norm_num [baseTotal, scoresConfig],
      by norm_num [blendWeights, baseTotal, scoresConfig, instFlowWeight],
      by norm_num [instFlowWeight],
      fun p f fu i => by norm_num [finalScoreBlend, instFlowWeight]⟩

/-- Claim C10: the record stores `final_readiness_score = round(final_score,
2)` while `buy_signal` and `signal_strength` are decided from the unrounded
`final_score`; hence any final score in `[79.995, 80)` is displayed as 80.0
together with base label BUY and strength "Medium" rather than STRONG
BUY/"High". -/
theorem c10_theorem (env : Env) (hist : HistData) (hd : env.daily = some hist)
    (s : ℚ) (h1 : 79995/1000 ≤ s) (h2 : s < 80) :
    recFinalScore (analyze_ticker env) = some (round2 (unroundedFinalScore env hist))
  ∧ recBuySignal (analyze_ticker env) = some (refineSignal
      (get_buy_signal_from_score (unroundedFinalScore env hist))
      (compute_mtf_confirmation env.mtfHists).2.1
      (detect_buy_the_dip env.btdHist).1
      (unroundedFinalScore env hist))
  ∧ recStrength (analyze_ticker env) = some (signalStrength (unroundedFinalScore env hist))
  ∧ round2 s = 80
  ∧ get_buy_signal_from_score s = "BUY"
  ∧ signalStrength s = "Medium" := by
  have hround : round (s * 100) = 8000 := by
    rw [round_eq, Int.floor_eq_iff]
    constructor <;> push_cast <;> linarith
  refine ⟨?_, ?_, ?_, ?_, ?_, ?_⟩
  · simp [analyze_ticker, hd, recFinalScore]
  · simp [analyze_ticker, hd, recBuySignal]
  · simp [analyze_ticker, hd, recStrength]
  · rw [round2, hround]; norm_num
  · exact (sgn_buy_iff s).mpr ⟨by linarith, h2⟩
  · exact (str_medium_iff s).mpr ⟨by linarith, h2⟩

/-- A concrete valid daily history used by witnesses. -/
def wHist : HistData := ⟨[1, 2, 3], [1, 2, 3], [0, 0, 0]⟩

/-- A concrete environment with a successful daily fetch used by
witnesses. -/
def wEnv : Env :=
  ⟨.EQUITY, "Technology", some wHist, none, ⟨[], none, none⟩,
    [none, none, none], none, none⟩

/-- The close series 1, 2, ..., 16: strictly rising, so over the last
`RSI_PERIOD` deltas the average down-move is 0 while the average up-move is
positive. -/
def c2Closes : List ℚ := [1, 2, 3, 4, 5, 6, 7, 8, 9, 10, 11, 12, 13, 14, 15, 16]

/-- Claim C2 counterexample: on the strictly rising close series
`1, 2, ..., 16` the Wilder average of negative deltas is 0, yet the computed
RSI is the finite value 100 (float semantics: `ma_up/0 = inf`), not
unavailable, and the Price Momentum Scorer's RSI sub-score is the overbought
0.2 mapping (0.24 when rising), not the fixed neutral 0.5. -/
theorem c2_counterexample :
    avgDownLast c2Closes = some 0
  ∧ avgUpLast c2Closes = some 1
  ∧ rsiLast c2Closes = some 100
  ∧ rsiSubScore (rsiLast c2Closes) false = 1/5
  ∧ rsiSubScore (rsiLast c2Closes) true = 6/25
  ∧ (1/5 : ℚ) ≠ 1/2 ∧ (6/25 : ℚ) ≠ 1/2 := by
  norm_num [avgDownLast, avgUpLast, rsiLast, rsiSubScore, rsiBase, c2Closes,
    rsiAvgs, rsiPeriod, lastN, seriesDiff, List.zipWith, min_def]

/-- Claim C2 (amended): when the Wilder average of down-moves over the last
RSI window is 0, the RSI is unavailable only if the average of up-moves is
also 0 (pandas `0/0 = NaN`), and only then does the scorer use the fixed
neutral 0.5; when the up average is nonzero the RSI is the finite value 100
and the scorer applies the overbought mapping (0.2, or 0.24 when rising). -/
theorem c2_theorem (closes : List ℚ) (au ad : ℚ)
    (hau : avgUpLast closes = some au) (had : avgDownLast closes = some ad)
    (h0 : ad = 0) :
    (au = 0 → rsiLast closes = none)
  ∧ (au ≠ 0 → rsiLast closes = some 100)
  ∧ (∀ rising, rsiSubScore none rising = 1/2)
  ∧ rsiSubScore (some 100) false = 1/5 ∧ rsiSubScore (some 100) true = 6/25 := by
  rcases hopt : rsiAvgs closes with _ | ⟨u, d⟩
  · rw [avgUpLast, hopt] at hau
    simp at hau
  · rw [avgUpLast, hopt] at hau
    rw [avgDownLast, hopt] at had
    simp at hau had
    subst hau
    subst had
    subst h0
    refine ⟨fun h => ?_, fun h => ?_, fun r => rfl,
      by norm_num [rsiSubScore, rsiBase, min_def]⟩
    · simp [rsiLast, hopt, h]
    · simp [rsiLast, hopt, h]

/-- Claim C2 witness: the amended theorem applied to a constant close series
of length 15, where both Wilder averages are 0, RSI is unavailable and the
sub-score is the neutral 0.5. -/
theorem c2_witness :
    rsiLast (List.replicate 15 (4 : ℚ)) = none ∧ rsiSubScore none false = 1/2 := by
  have h := c2_theorem (List.replicate 15 (4 : ℚ)) 0 0
    (by norm_num [avgUpLast, rsiAvgs, rsiPeriod, lastN, seriesDiff,
      List.zipWith, List.replicate])
    (by norm_num [avgDownLast, rsiAvgs, rsiPeriod, lastN, seriesDiff,
      List.zipWith, List.replicate])
    rfl
  exact ⟨h.1 rfl, h.2.2.1 false⟩

/-- A Technical Metrics Bundle with every feature off and a chosen RSI, used
to vary the RSI in isolation. -/
def c3Tech (r : Option ℚ) : Tech :=
  ⟨0, 0, 0, false, false, r, false, false, 0, 0, false, 0, 0, false⟩

/-- Claim C3 counterexample: with all other features fixed, RSI 29 is closer
to 60 than RSI 95 (|29−60| = 31 < 35 = |95−60|), yet it scores strictly less
(0 versus 4), because the flat caps of the mapping (0 below 30, 0.2 above 80)
break monotonicity in proximity to 60. -/
theorem c3_counterexample :
    |(29 : ℚ) - 60| < |(95 : ℚ) - 60|
  ∧ score_price_momentum_from_tech (c3Tech (some 29)) = 0
  ∧ score_price_momentum_from_tech (c3Tech (some 95)) = 4
  ∧ score_price_momentum_from_tech (c3Tech (some 29))
      < score_price_momentum_from_tech (c3Tech (some 95)) := by
  norm_num [score_price_momentum_from_tech, c3Tech, rsiSubScore, rsiBase, b2q]

/-- On the band `30 ≤ r ≤ 80` the finite-RSI mapping is monotone
non-increasing in the distance to 60. -/
lemma rsiBase_mono (r1 r2 : ℚ) (h1a : 30 ≤ r1) (h1b : r1 ≤ 80)
    (h2a : 30 ≤ r2) (h2b : r2 ≤ 80) (hprox : |r1 - 60| ≤ |r2 - 60|) :
    rsiBase r2 ≤ rsiBase r1 := by
  unfold rsiBase
  rw [if_neg (not_lt.mpr h2a), if_neg (not_lt.mpr h2b),
    if_neg (not_lt.mpr h1a), if_neg (not_lt.mpr h1b)]
  exact max_le_max le_rfl (by linarith)

/-- The RSI sub-score is monotone in `rsiBase` for any fixed rising flag. -/
lemma rsiSubScore_mono (ris : Bool) (r1 r2 : ℚ) (h1a : 30 ≤ r1) (h1b : r1 ≤ 80)
    (h2a : 30 ≤ r2) (h2b : r2 ≤ 80) (hprox : |r1 - 60| ≤ |r2 - 60|) :
    rsiSubScore (some r2) ris ≤ rsiSubScore (some r1) ris := by
  have hb := rsiBase_mono r1 r2 h1a h1b h2a h2b hprox
  cases ris
  · exact hb
  · exact min_le_min le_rfl (by nlinarith)

/-- Claim C3 (amended): monotone non-decreasing in RSI proximity to 60 holds
for RSI values in the band [30, 80] (holding every other feature fixed);
outside the band the flat caps (0 below 30, 0.2 above 80) violate it, as the
counterexample at RSI 29 versus 95 shows. -/
theorem c3_theorem (t : Tech) (r1 r2 : ℚ) (h1a : 30 ≤ r1) (h1b : r1 ≤ 80)
    (h2a : 30 ≤ r2) (h2b : r2 ≤ 80) (hprox : |r1 - 60| ≤ |r2 - 60|) :
    score_price_momentum_from_tech { t with rsi := some r2 }
      ≤ score_price_momentum_from_tech { t with rsi := some r1 } := by
  have hs := rsiSubScore_mono t.rsi_rising r1 r2 h1a h1b h2a h2b hprox
  simp only [score_price_momentum_from_tech]
  linarith

/-- Claim C3 witness: the amended theorem applied at RSI 60 versus 70 on the
all-off bundle. -/
theorem c3_witness :
    score_price_momentum_from_tech { c3Tech none with rsi := some 70 }
      ≤ score_price_momentum_from_tech { c3Tech none with rsi := some 60 } :=
  c3_theorem (c3Tech none) 60 70 (by norm_num) (by norm_num) (by norm_num)
    (by norm_num) (by rw [show (60 : ℚ) - 60 = 0 by norm_num,
      show (70 : ℚ) - 60 = 10 by norm_num]; simp)

/-- Claim C8: the Buy-The-Dip detector returns `(false, unavailable,
unavailable)` on a history-fetch failure; with retrievable history it returns
not-a-dip whenever the daily uptrend condition `ema_cross ∧
price_above_ema_slow` fails (regardless of pullback), and otherwise its flag
is true iff the pullback from the 20-bar recent high lies in
`[BTD_MIN_PULLBACK, BTD_MAX_PULLBACK]`, where the pullback is
`(recent_high - last_close)/recent_high` (0 when `recent_high ≤ 0`). -/
theorem c8_theorem (h : HistData) :
    detect_buy_the_dip none = (false, none, none)
  ∧ (¬((computeTech h).ema_cross = true ∧ (computeTech h).price_above_ema_slow = true) →
      detect_buy_the_dip (some h) = (false, none, none))
  ∧ ((computeTech h).ema_cross = true → (computeTech h).price_above_ema_slow = true →
      ((detect_buy_the_dip (some h)).1 = true ↔
        btdMinPullback ≤ btdPullback h.closes ∧ btdPullback h.closes ≤ btdMaxPullback))
  ∧ btdRecentHigh h.closes = listMax (btdLook h.closes)
  ∧ (0 < btdRecentHigh h.closes →
      btdPullback h.closes
        = (btdRecentHigh h.closes - getLastD h.closes 0) / btdRecentHigh h.closes)
  ∧ (btdRecentHigh h.closes ≤ 0 → btdPullback h.closes = 0) := by
  refine ⟨rfl, fun hno => ?_, fun h1 h2 => ?_, rfl, fun hpos => ?_, fun hle => ?_⟩
  · simp only [detect_buy_the_dip]
    rw [if_pos ⟨rfl, hno⟩]
  · simp only [detect_buy_the_dip]
    rw [if_neg (fun hc => hc.2 ⟨h1, h2⟩)]
    simp [Bool.and_eq_true, decide_eq_true_eq]
  · simp only [btdPullback]
    rw [if_pos hpos]
  · simp only [btdPullback]
    rw [if_neg (not_lt.mpr hle)]

/-- A constant daily history: its fast and slow EMAs coincide, so the daily
uptrend condition fails. -/
def wHist5 : HistData := ⟨[5, 5, 5], [5, 5, 5], [0, 0, 0]⟩

/-- Claim C8 witness: the theorem applied to the fetch-failure case and to a
concrete history whose uptrend condition fails. -/
theorem c8_witness :
    detect_buy_the_dip none = (false, none, none)
  ∧ detect_buy_the_dip (some wHist5) = (false, none, none) := by
  refine ⟨(c8_theorem wHist5).1, (c8_theorem wHist5).2.1 ?_⟩
  norm_num [computeTech, wHist5, emaLast, emaFastSpan, emaSlowSpan, List.foldl]

/-- Claim C10 witness: the theorem applied to the concrete environment
`wEnv` and the concrete score 79.996. -/
theorem c10_witness :
    recFinalScore (analyze_ticker wEnv) = some (round2 (unroundedFinalScore wEnv wHist))
  ∧ round2 (79996/1000) = 80
  ∧ get_buy_signal_from_score (79996/1000) = "BUY"
  ∧ signalStrength (79996/1000) = "Medium" := by
  have h := c10_theorem wEnv wHist rfl (79996/1000) (by norm_num) (by norm_num)
  exact ⟨h.1, h.2.2.2.1, h.2.2.2.2.1, h.2.2.2.2.2⟩

/-! ### Bounds helpers for the sub-scores and the blend -/

lemma clamp01_nonneg (x : ℚ) : 0 ≤ clamp01 x := le_max_left 0 _

lemma clamp01_le_one (x : ℚ) : clamp01 x ≤ 1 := max_le (by norm_num) (min_le_left _ _)

lemma b2q_nonneg (b : Bool) : 0 ≤ b2q b := by cases b <;> norm_num [b2q]

lemma b2q_le_one (b : Bool) : b2q b ≤ 1 := by cases b <;> norm_num [b2q]

lemma rsiBase_nonneg (rv : ℚ) : 0 ≤ rsiBase rv := by
  unfold rsiBase
  split_ifs
  · norm_num
  · norm_num
  · exact le_max_left 0 _

lemma rsiBase_le_one (rv : ℚ) : rsiBase rv ≤ 1 := by
  unfold rsiBase
  split_ifs
  · norm_num
  · norm_num
  · have h30 : 0 ≤ |rv - 60| / 30 := by positivity
    exact max_le (by norm_num) (by linarith)

lemma rsiSubScore_nonneg (r : Option ℚ) (ris : Bool) : 0 ≤ rsiSubScore r ris := by
  cases r with
  | none => norm_num [rsiSubScore]
  | some rv =>
    cases ris
    · exact rsiBase_nonneg rv
    · exact le_min (by norm_num) (mul_nonneg (rsiBase_nonneg rv) (by norm_num))

lemma rsiSubScore_le_one (r : Option ℚ) (ris : Bool) : rsiSubScore r ris ≤ 1 := by
  cases r with
  | none => norm_num [rsiSubScore]
  | some rv =>
    cases ris
    · exact rsiBase_le_one rv
    · exact min_le_left _ _

lemma cpMapped_nonneg (x : Option ℚ) : 0 ≤ cpMapped x := by
  cases x with
  | none => norm_num [cpMapped]
  | some v => exact clamp01_nonneg _

lemma cpMapped_le_one (x : Option ℚ) : cpMapped x ≤ 1 := by
  cases x with
  | none => norm_num [cpMapped]
  | some v => exact clamp01_le_one _

lemma scorePM_bounds (t : Tech) :
    0 ≤ score_price_momentum_from_tech t ∧ score_price_momentum_from_tech t ≤ 100 := by
  have h1 := b2q_nonneg t.ema_cross
  have h1' := b2q_le_one t.ema_cross
  have h2 := b2q_nonneg t.price_above_ema_slow
  have h2' := b2q_le_one t.price_above_ema_slow
  have h3 := rsiSubScore_nonneg t.rsi t.rsi_rising
  have h3' := rsiSubScore_le_one t.rsi t.rsi_rising
  have h4 := b2q_nonneg t.higher_lows_3
  have h4' := b2q_le_one t.higher_lows_3
  unfold score_price_momentum_from_tech
  constructor <;> linarith

lemma scoreVF_bounds (t : Tech) (o : OptMetrics) (ac : AssetClass) :
    0 ≤ score_volume_flow_from_tech_opt t o ac
  ∧ score_volume_flow_from_tech_opt t o ac ≤ 100 := by
  have h1 := b2q_nonneg t.vol_spike_up
  have h1' := b2q_le_one t.vol_spike_up
  have h2 := b2q_nonneg t.obv_slope_pos
  have h2' := b2q_le_one t.obv_slope_pos
  have h3 := cpMapped_nonneg o.callPutVolRat
  have h3' := cpMapped_le_one o.callPutVolRat
  have h4 := cpMapped_nonneg o.callPutOiRat
  have h4' := cpMapped_le_one o.callPutOiRat
  unfold score_volume_flow_from_tech_opt
  rw [show (30/100 + 30/100 + 20/100 + 20/100 : ℚ) = 1 from by norm_num, div_one]
  split_ifs <;> constructor <;> linarith

lemma scoreFund_bounds (fd : FundData) :
    0 ≤ score_fundamentals fd ∧ score_fundamentals fd ≤ 100 := by
  have h := clamp01_nonneg
    (5/10 * earningsScoreOf fd + 3/10 * recScoreOf fd + 2/10 * shortScoreOf fd)
  have h' := clamp01_le_one
    (5/10 * earningsScoreOf fd + 3/10 * recScoreOf fd + 2/10 * shortScoreOf fd)
  unfold score_fundamentals
  constructor <;> linarith

lemma cpvScoreOf_bounds (o : OptMetrics) : 0 ≤ cpvScoreOf o ∧ cpvScoreOf o ≤ 1 := by
  unfold cpvScoreOf
  cases o.callPutVolRat with
  | none => norm_num
  | some v => exact ⟨clamp01_nonneg _, clamp01_le_one _⟩

lemma volScoreOf_bounds (t : Tech) : 0 ≤ volScoreOf t ∧ volScoreOf t ≤ 1 := by
  unfold volScoreOf
  split_ifs
  · exact ⟨clamp01_nonneg _, clamp01_le_one _⟩
  · norm_num

lemma instProxy_bounds (t : Tech) (o : OptMetrics) :
    0 ≤ institutional_flow_proxy t o ∧ institutional_flow_proxy t o ≤ 100 := by
  have h1 := cpvScoreOf_bounds o
  have h2 := volScoreOf_bounds t
  have h3 := b2q_nonneg t.obv_slope_pos
  have h3' := b2q_le_one t.obv_slope_pos
  unfold institutional_flow_proxy
  constructor <;> [nlinarith [h1.1, h1.2, h2.1, h2.2]; nlinarith [h1.1, h1.2, h2.1, h2.2]]

lemma blend_bounds (ac : AssetClass) (p f fu i : ℚ)
    (hp0 : 0 ≤ p) (hp1 : p ≤ 100) (hf0 : 0 ≤ f) (hf1 : f ≤ 100)
    (hfu0 : 0 ≤ fu) (hfu1 : fu ≤ 100) (hi0 : 0 ≤ i) (hi1 : i ≤ 100) :
    0 ≤ finalScoreBlend ac p f fu i ∧ finalScoreBlend ac p f fu i ≤ 100 := by
  cases ac <;>
    · norm_num [finalScoreBlend, blendWeights, baseTotal, scoresConfig, instFlowWeight]
      constructor <;> linarith

/-- Claim C4: every sub-score (price momentum, volume/flow, fundamentals,
institutional proxy) lies in [0, 100] for all inputs, and the blended final
score lies in [0, 100] whenever all four blended inputs lie in [0, 100], for
every asset class. -/
theorem c4_theorem (t : Tech) (o : OptMetrics) (ac : AssetClass) (fd : FundData)
    (p f fu i : ℚ) (hp0 : 0 ≤ p) (hp1 : p ≤ 100) (hf0 : 0 ≤ f) (hf1 : f ≤ 100)
    (hfu0 : 0 ≤ fu) (hfu1 : fu ≤ 100) (hi0 : 0 ≤ i) (hi1 : i ≤ 100) :
    (0 ≤ score_price_momentum_from_tech t ∧ score_price_momentum_from_tech t ≤ 100)
  ∧ (0 ≤ score_volume_flow_from_tech_opt t o ac
      ∧ score_volume_flow_from_tech_opt t o ac ≤ 100)
  ∧ (0 ≤ score_fundamentals fd ∧ score_fundamentals fd ≤ 100)
  ∧ (0 ≤ institutional_flow_proxy t o ∧ institutional_flow_proxy t o ≤ 100)
  ∧ (0 ≤ finalScoreBlend ac p f fu i ∧ finalScoreBlend ac p f fu i ≤ 100) :=
  ⟨scorePM_bounds t, scoreVF_bounds t o ac, scoreFund_bounds fd, instProxy_bounds t o,
    blend_bounds ac p f fu i hp0 hp1 hf0 hf1 hfu0 hfu1 hi0 hi1⟩

/-- Claim C4 witness: the theorem applied to a concrete bundle, empty option
metrics, the EQUITY class and neutral 50 blend inputs. -/
theorem c4_witness :
    (0 ≤ score_price_momentum_from_tech (c3Tech none)
      ∧ score_price_momentum_from_tech (c3Tech none) ≤ 100)
  ∧ (0 ≤ finalScoreBlend AssetClass.EQUITY 50 50 50 50
      ∧ finalScoreBlend AssetClass.EQUITY 50 50 50 50 ≤ 100) := by
  have h := c4_theorem (c3Tech none) ⟨none, none, none, none, none, none, none⟩
    AssetClass.EQUITY ⟨[], none, none⟩ 50 50 50 50 (by norm_num) (by norm_num)
    (by norm_num) (by norm_num) (by norm_num) (by norm_num) (by norm_num) (by norm_num)
  exact ⟨h.1, h.2.2.2.2⟩

/-- Claim C9: the per-ticker entry point is total: a failing primary
daily-history fetch produces the error record (asset class and sector were
set before the failure; it carries an error message and no score fields), any
successful daily fetch produces a fully scored record, and in a batch the
record of the i-th ticker is a function of that ticker's environment alone
(mapping `analyze_ticker` over the batch evaluates it independently per
entry). -/
theorem c9_theorem (env : Env) (envs : List Env) (i : ℕ) :
    (env.daily = none →
      analyze_ticker env = AnalysisRec.err env.assetClass env.sector "history fetch failed")
  ∧ (∀ h : HistData, env.daily = some h → isScored (analyze_ticker env) = true)
  ∧ (envs.map analyze_ticker)[i]? = (envs[i]?).map analyze_ticker := by
  refine ⟨fun hd => ?_, fun h hd => ?_, ?_⟩
  · simp [analyze_ticker, hd]
  · simp [analyze_ticker, hd, isScored]
  · simp

/-- An environment whose primary daily fetch failed. -/
def c9EnvFail : Env := ⟨.ETF, "Funds", none, none, ⟨[], none, none⟩, [], none, none⟩

/-- Claim C9 witness: the theorem applied to a concrete failing environment
and a concrete succeeding one. -/
theorem c9_witness :
    analyze_ticker c9EnvFail = AnalysisRec.err AssetClass.ETF "Funds" "history fetch failed"
  ∧ isScored (analyze_ticker wEnv) = true :=
  ⟨(c9_theorem c9EnvFail [] 0).1 rfl, (c9_theorem wEnv [] 0).2.1 wHist rfl⟩

end StockScanner
